import Mathlib

/-!
Verification of the fraud-detection scoring engine described by this
repository's specification, together with the dashboard helpers found in
src/app/page.tsx.  The scoring engine itself (parser, feature extractor,
risk scorer, classifier, batch coordinator) is not present among the
repository's source files — only its browser-side caller and its README
are — so the engine definitions below are modelled from the specification
text and marked as such.  The dashboard-side definitions (the upload
result shape, the CSV export file name, getRiskColor, getRiskIcon) are
translated directly from src/app/page.tsx.
-/

namespace FraudDetection

/-- Modelled from the spec: the fraud decision threshold (configured,
default 0.5). -/
def FRAUD_THRESHOLD : ℚ := 1/2

/-- Modelled from the spec: amount threshold for the high_amount
indicator (amount strictly above 1000 fires it). -/
def HIGH_AMOUNT_THRESHOLD : ℚ := 1000

/-- Modelled from the spec: last hour of the configured off-hours window
00:00 to 05:00. -/
def OFF_HOURS_END : Nat := 5

/-- Modelled from the spec: configured keyword set for suspicious
merchants, matched by substring containment on the normalized text. -/
def SUSPICIOUS_KEYWORDS : List String :=
  ["atm", "cash advance", "wire transfer", "crypto", "casino"]

/-- Modelled from the spec: configured high-risk location set; the spec's
second worked example requires that an unknown location fires the
location indicator while the first example's location does not. -/
def HIGH_RISK_LOCATIONS : List String := ["unknown"]

/-- Modelled from the spec: weight of the high_amount indicator. -/
def W_HIGH_AMOUNT : ℚ := 3/10

/-- Modelled from the spec: weight of the unusual_time indicator. -/
def W_UNUSUAL_TIME : ℚ := 1/5

/-- Modelled from the spec: weight of the suspicious_merchant indicator. -/
def W_SUSPICIOUS_MERCHANT : ℚ := 3/10

/-- Modelled from the spec: weight of the high_risk_location indicator. -/
def W_HIGH_RISK_LOCATION : ℚ := 1/5

/-- Modelled from the spec: the normalized transaction record consumed by
the Feature Extractor; only amount is required, every other field is
optional and defaults to a neutral value. -/
structure TransactionRecord where
  amount : ℚ
  merchant : Option String
  location : Option String
  time : Option String
  card_type : Option String

/-- Whitespace recognizer used for trimming. -/
def isSpaceChar (c : Char) : Bool :=
  c == ' ' || c == '\t' || c == '\n' || c == '\r'

/-- Trim whitespace from both ends of a character list. -/
def trimChars (l : List Char) : List Char :=
  ((l.dropWhile isSpaceChar).reverse.dropWhile isSpaceChar).reverse

/-- Case normalization as the Record Parser performs it: trimmed and
lower-cased, at the character level. -/
def normalizeChars (s : String) : List Char :=
  trimChars (s.toList.map Char.toLower)

/-- Whether the first character list starts the second. -/
def startsWithList : List Char → List Char → Bool
  | [], _ => true
  | _ :: _, [] => false
  | a :: as, b :: bs => a == b && startsWithList as bs

/-- Whether the first character list occurs contiguously inside the
second. -/
def occursIn : List Char → List Char → Bool
  | p, [] => p.isEmpty
  | p, b :: bs => startsWithList p (b :: bs) || occursIn p bs

/-- Substring containment of a keyword in normalized text, used for
merchant keyword matching. -/
def containsChars (haystack : List Char) (needle : String) : Bool :=
  occursIn needle.toList haystack

/-- Decimal value of a digit character. -/
def charDigit? (c : Char) : Option Nat :=
  if c.isDigit then some (c.toNat - 48) else none

/-- Accumulate a decimal number over a digit list; any non-digit makes
the whole parse fail. -/
def digitsVal : List Char → Option Nat → Option Nat
  | [], acc => acc
  | c :: cs, acc =>
    digitsVal cs (acc.bind fun n => (charDigit? c).map fun d => n * 10 + d)

/-- Parse a non-empty list of decimal digits. -/
def digitsToNat? (l : List Char) : Option Nat :=
  if l.isEmpty then none else digitsVal l (some 0)

/-- Hour extracted from an hour-of-day string or an HH:MM string: the
digits before the first colon. -/
def hourOfTimeString (s : String) : Option Nat :=
  digitsToNat? (s.toList.takeWhile (fun c => !(c == ':')))

/-- Modelled from the spec: the fixed feature set produced once per
record. -/
structure FeatureSet where
  amount : ℚ
  high_amount : Bool
  unusual_time : Bool
  suspicious_merchant : Bool
  high_risk_location : Bool

/-- Modelled from the spec: pure feature extraction; any absent optional
field yields the feature's neutral (non-risky) value. -/
def extract (r : TransactionRecord) : FeatureSet where
  amount := r.amount
  high_amount := decide (HIGH_AMOUNT_THRESHOLD < r.amount)
  unusual_time :=
    match r.time.bind hourOfTimeString with
    | some h => decide (h ≤ OFF_HOURS_END)
    | none => false
  suspicious_merchant :=
    match r.merchant with
    | some m => SUSPICIOUS_KEYWORDS.any (fun k => containsChars (normalizeChars m) k)
    | none => false
  high_risk_location :=
    match r.location with
    | some l => HIGH_RISK_LOCATIONS.any (fun k => k.toList == normalizeChars l)
    | none => false

/-- Clamp a rational to the unit interval. -/
def clamp01 (x : ℚ) : ℚ := max 0 (min 1 x)

/-- Contribution of one boolean indicator under its weight. -/
def contrib (b : Bool) (w : ℚ) : ℚ := if b then w else 0

/-- Modelled from the spec: weighted risk aggregation over the fixed
weight table, clamped to the unit interval. -/
def score (f : FeatureSet) : ℚ :=
  clamp01 (contrib f.high_amount W_HIGH_AMOUNT +
    contrib f.unusual_time W_UNUSUAL_TIME +
    contrib f.suspicious_merchant W_SUSPICIOUS_MERCHANT +
    contrib f.high_risk_location W_HIGH_RISK_LOCATION)

/-- Modelled from the spec: threshold the risk score into a label by the
greater-or-equal rule and derive confidence as the clamped distance from
the decision boundary, with the threshold passed explicitly. -/
def classifyWith (threshold risk_score : ℚ) : String × ℚ :=
  (if threshold ≤ risk_score then "fraud" else "legitimate",
   clamp01 (1/2 +
     (if threshold ≤ risk_score then risk_score - threshold
      else threshold - risk_score)))

/-- Modelled from the spec: classification at the configured default
threshold. -/
def classify (risk_score : ℚ) : String × ℚ :=
  classifyWith FRAUD_THRESHOLD risk_score

/-- Modelled from the spec: the per-record evaluation result. -/
structure PredictionResult where
  prediction : String
  confidence : ℚ
  risk_score : ℚ
  features : FeatureSet

/-- Modelled from the spec: the full per-record pipeline, feature
extraction then scoring then classification. -/
def evaluate_single (r : TransactionRecord) : PredictionResult :=
  let f := extract r
  let rs := score f
  { prediction := (classify rs).1
    confidence := (classify rs).2
    risk_score := rs
    features := f }

/-- Modelled from the spec: the aggregate batch summary; filename is an
optional source label. -/
structure BatchSummary where
  total_transactions : Nat
  fraud_detected : Nat
  legitimate_transactions : Nat
  fraud_percentage : ℚ
  filename : Option String

/-- Modelled from the spec: one output entry of a batch — either an
evaluated record or a per-record parse error, each carrying the 1-based
transaction id assigned from the input position. -/
inductive BatchEntry where
  | ok (transaction_id : Nat) (result : PredictionResult)
      (original_data : TransactionRecord)
  | err (transaction_id : Nat) (message : String)

/-- Transaction id carried by a batch entry. -/
def BatchEntry.tid : BatchEntry → Nat
  | .ok i _ _ => i
  | .err i _ => i

/-- Whether a batch entry is an evaluated record labelled fraud. -/
def BatchEntry.isFraud : BatchEntry → Bool
  | .ok _ res _ => res.prediction == "fraud"
  | .err _ _ => false

/-- Whether a batch entry is an evaluated record labelled legitimate. -/
def BatchEntry.isLegitimate : BatchEntry → Bool
  | .ok _ res _ => res.prediction == "legitimate"
  | .err _ _ => false

/-- Whether a batch entry records a per-record parse failure. -/
def BatchEntry.isError : BatchEntry → Bool
  | .ok _ _ _ => false
  | .err _ _ => true

/-- Modelled from the spec: ordered result list paired with one summary. -/
structure BatchResult where
  results : List BatchEntry
  summary : BatchSummary

/-- Rounding to one decimal place. -/
def round1 (x : ℚ) : ℚ := (round (10 * x) : ℚ) / 10

/-- Modelled from the spec: build the batch entry for one raw record at
its assigned 1-based id; a parse failure becomes an error entry, not an
aborted batch. -/
def mkEntry (i : Nat) : Except String TransactionRecord → BatchEntry
  | .ok r => .ok i (evaluate_single r) r
  | .error m => .err i m

/-- Modelled from the spec: run the pipeline over the input sequence,
assigning ids from the given starting index in input order. -/
def numberEntries (i : Nat) : List (Except String TransactionRecord) → List BatchEntry
  | [] => []
  | r :: rest => mkEntry i r :: numberEntries (i + 1) rest

/-- Modelled from the spec: the Batch Coordinator — ids are the 1-based
input positions, parse failures are excluded from the fraud and
legitimate counts but included in total_transactions, and the fraud
percentage is guarded against the empty batch. -/
def evaluate_batch (records : List (Except String TransactionRecord))
    (filename : Option String) : BatchResult :=
  let entries := numberEntries 1 records
  let fraud := (entries.filter BatchEntry.isFraud).length
  let legit := (entries.filter BatchEntry.isLegitimate).length
  let total := records.length
  { results := entries
    summary :=
      { total_transactions := total
        fraud_detected := fraud
        legitimate_transactions := legit
        fraud_percentage :=
          if total = 0 then 0 else round1 (100 * (fraud : ℚ) / (total : ℚ))
        filename := filename } }

/-- The dashboard's batch summary shape (src/app/page.tsx,
FileUploadResult): filename is declared as a required string. -/
structure FileUploadSummary where
  total_transactions : Nat
  fraud_detected : Nat
  legitimate_transactions : Nat
  fraud_percentage : ℚ
  filename : String

/-- JavaScript template-literal rendering of a possibly absent string
field: an absent value prints as the literal text undefined. -/
def jsRenderOpt : Option String → String
  | some s => s
  | none => "undefined"

/-- Download file name built by exportResults (src/app/page.tsx). -/
def exportFileName (filename : Option String) : String :=
  "fraud_analysis_" ++ jsRenderOpt filename ++ "_results.csv"

/-- The three icons the dashboard can render for a risk score. -/
inductive RiskIcon where
  | CheckCircle
  | AlertTriangle
  | XCircle
deriving DecidableEq

/-- getRiskColor from src/app/page.tsx. -/
def getRiskColor (riskScore : ℚ) : String :=
  if riskScore < 3/10 then "text-green-600"
  else if riskScore < 7/10 then "text-yellow-600"
  else "text-red-600"

/-- getRiskIcon from src/app/page.tsx. -/
def getRiskIcon (riskScore : ℚ) : RiskIcon :=
  if riskScore < 3/10 then .CheckCircle
  else if riskScore < 7/10 then .AlertTriangle
  else .XCircle

/-- The three-way banding stated by the claim: scores below 0.3 are the
low band, scores at least 0.3 and below 0.7 the middle band, scores at
or above 0.7 the high band. -/
inductive RiskBand where
  | low
  | mid
  | high
deriving DecidableEq

/-- Band of a risk score, following the claim's wording. -/
def riskBand (riskScore : ℚ) : RiskBand :=
  if riskScore < 3/10 then .low
  else if riskScore < 7/10 then .mid
  else .high

/-- Color the claim assigns to each band. -/
def bandColor : RiskBand → String
  | .low => "text-green-600"
  | .mid => "text-yellow-600"
  | .high => "text-red-600"

/-- Icon the claim assigns to each band. -/
def bandIcon : RiskBand → RiskIcon
  | .low => .CheckCircle
  | .mid => .AlertTriangle
  | .high => .XCircle

/-- The worked example input of the specification. -/
def exampleRecord : TransactionRecord :=
  { amount := 1500
    merchant := some "Online Store"
    location := some "New York"
    time := some "14:30"
    card_type := some "credit" }

/-- A record whose amount fails to parse, as the Record Parser reports
it in batch mode. -/
def badRecord : Except String TransactionRecord :=
  .error "unparsable amount"

/-- Label component of classifyWith. -/
lemma classifyWith_fst (t r : ℚ) :
    (classifyWith t r).1 = if t ≤ r then "fraud" else "legitimate" := rfl

/-- Confidence component of classifyWith. -/
lemma classifyWith_snd (t r : ℚ) :
    (classifyWith t r).2 = clamp01 (1/2 + (if t ≤ r then r - t else t - r)) := rfl

/-- The clamp never goes below zero. -/
lemma clamp01_nonneg (x : ℚ) : 0 ≤ clamp01 x := le_max_left 0 _

/-- The clamp never exceeds one. -/
lemma clamp01_le_one (x : ℚ) : clamp01 x ≤ 1 :=
  max_le (by norm_num) (min_le_left 1 x)

/-- Every classification label is one of the two expected strings. -/
lemma classify_label_cases (s : ℚ) :
    (classify s).1 = "fraud" ∨ (classify s).1 = "legitimate" := by
  rw [classify, classifyWith_fst]
  by_cases h : FRAUD_THRESHOLD ≤ s
  · exact Or.inl (if_pos h)
  · exact Or.inr (if_neg h)

/-- The id stored in an entry is the id it was built with. -/
lemma tid_mkEntry (i : Nat) (r : Except String TransactionRecord) :
    (mkEntry i r).tid = i := by
  cases r <;> rfl

/-- Unfolding step of the id range. -/
lemma range'_cons (i n : Nat) :
    List.range' i (n + 1) = i :: List.range' (i + 1) n := rfl

/-- Ids of the numbered entries are the consecutive range starting at the
given index. -/
lemma numberEntries_map_tid (rs : List (Except String TransactionRecord)) :
    ∀ i, (numberEntries i rs).map BatchEntry.tid = List.range' i rs.length := by
  induction rs with
  | nil => intro i; rfl
  | cons r rest ih =>
    intro i
    simp only [numberEntries, List.map_cons, tid_mkEntry, ih (i + 1),
      List.length_cons, range'_cons]

/-- The numbered entries are the input records zipped with their 1-based
positions. -/
lemma numberEntries_eq_zipWith (rs : List (Except String TransactionRecord)) :
    ∀ i, numberEntries i rs = List.zipWith mkEntry (List.range' i rs.length) rs := by
  induction rs with
  | nil => intro i; rfl
  | cons r rest ih =>
    intro i
    simp only [numberEntries, List.length_cons, range'_cons, List.zipWith_cons_cons,
      ih (i + 1)]

/-- Every evaluated record is labelled fraud or legitimate. -/
lemma prediction_cases (t : TransactionRecord) :
    (evaluate_single t).prediction = "fraud" ∨
      (evaluate_single t).prediction = "legitimate" :=
  classify_label_cases (score (extract t))

/-- Exactly one of the three entry flags holds for every built entry. -/
lemma mkEntry_flag_partition (i : Nat) (r : Except String TransactionRecord) :
    ((mkEntry i r).isFraud = true ∧ (mkEntry i r).isLegitimate = false ∧
      (mkEntry i r).isError = false) ∨
    ((mkEntry i r).isFraud = false ∧ (mkEntry i r).isLegitimate = true ∧
      (mkEntry i r).isError = false) ∨
    ((mkEntry i r).isFraud = false ∧ (mkEntry i r).isLegitimate = false ∧
      (mkEntry i r).isError = true) := by
  cases r with
  | error m => exact Or.inr (Or.inr ⟨rfl, rfl, rfl⟩)
  | ok t =>
    rcases prediction_cases t with hc | hc
    · refine Or.inl ⟨?_, ?_, rfl⟩
      · show ((evaluate_single t).prediction == "fraud") = true
        rw [hc]; decide
      · show ((evaluate_single t).prediction == "legitimate") = false
        rw [hc]; decide
    · refine Or.inr (Or.inl ⟨?_, ?_, rfl⟩)
      · show ((evaluate_single t).prediction == "fraud") = false
        rw [hc]; decide
      · show ((evaluate_single t).prediction == "legitimate") = true
        rw [hc]; decide

/-- Fraud, legitimate and error entries partition every numbered batch. -/
lemma numberEntries_counts (rs : List (Except String TransactionRecord)) :
    ∀ i, ((numberEntries i rs).filter BatchEntry.isFraud).length +
      ((numberEntries i rs).filter BatchEntry.isLegitimate).length +
      ((numberEntries i rs).filter BatchEntry.isError).length = rs.length := by
  induction rs with
  | nil => intro i; rfl
  | cons r rest ih =>
    intro i
    have h := ih (i + 1)
    have hcons : numberEntries i (r :: rest) =
      mkEntry i r :: numberEntries (i + 1) rest := rfl
    rcases mkEntry_flag_partition i r with ⟨h1, h2, h3⟩ | ⟨h1, h2, h3⟩ | ⟨h1, h2, h3⟩ <;>
      simp only [hcons, List.filter_cons, h1, h2, h3, if_true, Bool.false_eq_true,
        if_false, List.length_cons] <;> omega

/-- C1: the classifier labels a risk score as fraud exactly when it is at
least the configured fraud threshold, and as legitimate exactly when it
is strictly below it. -/
theorem c1_classify_label_iff (r : ℚ) :
    ((classify r).1 = "fraud" ↔ FRAUD_THRESHOLD ≤ r) ∧
    ((classify r).1 = "legitimate" ↔ r < FRAUD_THRESHOLD) := by
  rw [classify, classifyWith_fst]
  by_cases h : FRAUD_THRESHOLD ≤ r
  · simp [h, not_lt.mpr h]
  · simp [h, not_le.mp h]

/-- C2 counterexample: when the risk score is exactly the fraud
threshold, classify returns the label fraud, not legitimate. -/
theorem c2_boundary_counterexample :
    (classify FRAUD_THRESHOLD).1 = "fraud" ∧
    (classify FRAUD_THRESHOLD).1 ≠ "legitimate" := by
  rw [classify, classifyWith_fst, if_pos le_rfl]
  exact ⟨rfl, by decide⟩

/-- C2 amended: when the risk score is exactly equal to the threshold the
greater-or-equal rule yields the label fraud, for every threshold. -/
theorem c2_boundary_amended (t : ℚ) : (classifyWith t t).1 = "fraud" := by
  rw [classifyWith_fst, if_pos le_rfl]

/-- C3: for every transaction record the pipeline's risk score and
confidence both lie in the unit interval. -/
theorem c3_scores_in_unit_interval (r : TransactionRecord) :
    0 ≤ (evaluate_single r).risk_score ∧ (evaluate_single r).risk_score ≤ 1 ∧
    0 ≤ (evaluate_single r).confidence ∧ (evaluate_single r).confidence ≤ 1 := by
  refine ⟨?_, ?_, ?_, ?_⟩
  · exact clamp01_nonneg _
  · exact clamp01_le_one _
  · exact clamp01_nonneg _
  · exact clamp01_le_one _

/-- C4: the confidence returned by classify is one half plus the absolute
distance of the risk score from the fraud threshold, clamped to the unit
interval. -/
theorem c4_confidence_formula (r : ℚ) :
    (classify r).2 = clamp01 (1/2 + |r - FRAUD_THRESHOLD|) := by
  rw [classify, classifyWith_snd]
  by_cases h : FRAUD_THRESHOLD ≤ r
  · rw [if_pos h, abs_of_nonneg (sub_nonneg.mpr h)]
  · rw [if_neg h, abs_of_neg (sub_neg.mpr (not_le.mp h)), neg_sub]

/-- C5 counterexample: a one-record batch whose single record fails to
parse has fraud and legitimate counts summing to zero while
total_transactions is one. -/
theorem c5_counts_counterexample :
    (evaluate_batch [badRecord] none).summary.fraud_detected +
      (evaluate_batch [badRecord] none).summary.legitimate_transactions ≠
      (evaluate_batch [badRecord] none).summary.total_transactions := by
  decide

/-- C5 amended: fraud_detected plus legitimate_transactions plus the
number of parse-error entries equals total_transactions, so the two
counts sum to the total exactly when the batch has no parse errors. -/
theorem c5_amended_counts (records : List (Except String TransactionRecord))
    (fn : Option String) :
    (evaluate_batch records fn).summary.fraud_detected +
      (evaluate_batch records fn).summary.legitimate_transactions +
      ((evaluate_batch records fn).results.filter BatchEntry.isError).length =
      (evaluate_batch records fn).summary.total_transactions :=
  numberEntries_counts records 1

/-- C6: the batch output is the input sequence zipped in order with the
1-based positions, and its transaction ids are exactly 1..N in input
order. -/
theorem c6_order_and_ids (records : List (Except String TransactionRecord))
    (fn : Option String) :
    (evaluate_batch records fn).results =
      List.zipWith mkEntry (List.range' 1 records.length) records ∧
    (evaluate_batch records fn).results.map BatchEntry.tid =
      List.range' 1 records.length :=
  ⟨numberEntries_eq_zipWith records 1, numberEntries_map_tid records 1⟩

/-- C7: the empty batch produces an empty result list and a fraud
percentage of zero, with the division guarded away. -/
theorem c7_empty_batch (fn : Option String) :
    (evaluate_batch [] fn).results = [] ∧
    (evaluate_batch [] fn).summary.fraud_percentage = 0 :=
  ⟨rfl, rfl⟩

/-- C8: the specification's worked example yields a high amount, no other
indicator, a risk score of 0.3, the label legitimate and a confidence of
0.7. -/
theorem c8_worked_example :
    (extract exampleRecord).high_amount = true ∧
    (extract exampleRecord).unusual_time = false ∧
    (extract exampleRecord).suspicious_merchant = false ∧
    (evaluate_single exampleRecord).risk_score = 3/10 ∧
    (evaluate_single exampleRecord).prediction = "legitimate" ∧
    (evaluate_single exampleRecord).confidence = 7/10 := by
  have h1 : (extract exampleRecord).high_amount = true := by decide
  have h2 : (extract exampleRecord).unusual_time = false := by decide
  have h3 : (extract exampleRecord).suspicious_merchant = false := by decide
  have h4 : (extract exampleRecord).high_risk_location = false := by decide
  have hrs : (evaluate_single exampleRecord).risk_score = 3/10 := by
    show score (extract exampleRecord) = 3/10
    rw [score, h1, h2, h3, h4]
    norm_num [contrib, clamp01, W_HIGH_AMOUNT, W_UNUSUAL_TIME,
      W_SUSPICIOUS_MERCHANT, W_HIGH_RISK_LOCATION]
  have hlt : ¬ FRAUD_THRESHOLD ≤ score (extract exampleRecord) := by
    rw [show score (extract exampleRecord) =
      (evaluate_single exampleRecord).risk_score from rfl, hrs]
    norm_num [FRAUD_THRESHOLD]
  have hpred : (evaluate_single exampleRecord).prediction = "legitimate" := by
    show (classify (score (extract exampleRecord))).1 = "legitimate"
    rw [classify, classifyWith_fst, if_neg hlt]
  have hconf : (evaluate_single exampleRecord).confidence = 7/10 := by
    show (classify (score (extract exampleRecord))).2 = 7/10
    rw [classify, classifyWith_snd, if_neg hlt,
      show score (extract exampleRecord) =
        (evaluate_single exampleRecord).risk_score from rfl, hrs]
    norm_num [clamp01, FRAUD_THRESHOLD]
  exact ⟨h1, h2, h3, hrs, hpred, hconf⟩

/-- C9 counterexample: the engine can produce a summary with no filename,
but the dashboard export renders the absent filename exactly like the
present literal filename undefined, so the absent case is not handled as
its own case by the consumer. -/
theorem c9_filename_counterexample :
    (evaluate_batch [] none).summary.filename = none ∧
    exportFileName none = exportFileName (some "undefined") ∧
    exportFileName none = "fraud_analysis_undefined_results.csv" :=
  ⟨rfl, rfl, rfl⟩

/-- C9 amended: the engine-side filename is optional and passed through
unchanged by evaluate_batch, but the dashboard consumer requires a
filename and renders an absent one as the literal text undefined in the
export file name instead of handling the absent case. -/
theorem c9_filename_amended (records : List (Except String TransactionRecord))
    (fn : Option String) :
    (evaluate_batch records fn).summary.filename = fn ∧
    exportFileName none = "fraud_analysis_undefined_results.csv" :=
  ⟨rfl, rfl⟩

/-- C10: getRiskColor and getRiskIcon are total functions of the risk
score inducing the same three-way banding — below 0.3 green and
CheckCircle, from 0.3 up to but excluding 0.7 yellow and AlertTriangle,
at or above 0.7 red and XCircle. -/
theorem c10_color_icon_same_band (r : ℚ) :
    getRiskColor r = bandColor (riskBand r) ∧
    getRiskIcon r = bandIcon (riskBand r) := by
  rw [getRiskColor, getRiskIcon, riskBand]
  by_cases h1 : r < 3/10
  · simp [h1, bandColor, bandIcon]
  · by_cases h2 : r < 7/10 <;> simp [h1, h2, bandColor, bandIcon]

end FraudDetection
